import Mathlib

/-!
Verification of the queue-driven download orchestrator of the
flac_bulk_download repository: a shallow embedding of `state.py`,
`config.py`, `async_downloader.py` and the `/start-download` route of
`app.py`, together with theorems settling the specified properties of
enqueueing, draining, fallback retries, failure logging and progress
reporting.

Modelling conventions:
- Python machine state (`AppState` in `state.py`) becomes a Lean structure;
  mutating methods become functions `AppState → ... → AppState`.
- `time.strftime` results are passed in as an explicit `ts : String`
  parameter wherever the code calls `state.add_log`.
- The external tool (`spotdl`, run through `asyncio.create_subprocess_exec`
  inside `_run_hifi_command`) is modelled by a `ToolOutcome` oracle: a
  subprocess either completes with a return code and combined
  stdout+stderr output, times out, or raises.
- Python attribute lookup on the `config` module is modelled by making the
  one attribute that `config.py` does NOT define (`PREFERRED_QUALITY`) an
  `Option String` field; `none` corresponds to the `AttributeError` that
  `config.PREFERRED_QUALITY` raises in `download_track`.
- Exceptions that escape a function are modelled with `Except PyError`.
-/

namespace FlacBulk

/-! ## state.py -/

/-- `AppState` from `state.py` (lines 6-15): the process-wide mutable
record of queue contents and progress counters. -/
structure AppState where
  is_downloading : Bool
  total_tracks : Nat
  completed_tracks : Nat
  success_count : Nat
  fail_count : Nat
  current_track : String
  recent_logs : List String
  queue : List String
deriving DecidableEq, Repr

/-- The module-level `state = AppState()` instance: all counters zero,
empty logs and queue (`state.py` line 52 and the dataclass defaults). -/
def state0 : AppState :=
  { is_downloading := false, total_tracks := 0, completed_tracks := 0
  , success_count := 0, fail_count := 0, current_track := ""
  , recent_logs := [], queue := [] }

/-- The log-line format `f"[{timestamp}] {message}"` of
`AppState.add_log` (`state.py` line 47). -/
def logFmt (ts message : String) : String :=
  "[" ++ ts ++ "] " ++ message

/-- `AppState.add_log` (`state.py` lines 45-49): insert the formatted
message at the front of `recent_logs`; if the length then exceeds 50,
`pop()` the last (oldest) entry. -/
def AppState.add_log (s : AppState) (ts message : String) : AppState :=
  let logs := logFmt ts message :: s.recent_logs
  { s with recent_logs := if logs.length > 50 then logs.dropLast else logs }

/-- One iteration of the `for t in new_tracks` loop of
`add_tracks_to_queue` (`state.py` lines 30-34), acting on the pair
(queue, added_count).  The Python code keeps `current_set` equal to the
set of elements of `self.queue` throughout the loop, so the membership
test `t not in current_set` is membership in the evolving queue. -/
def queueInsert (acc : List String × Nat) (t : String) : List String × Nat :=
  if t ∈ acc.1 then acc else (acc.1 ++ [t], acc.2 + 1)

/-- `AppState.add_tracks_to_queue` (`state.py` lines 26-38).  The method
appends the unseen tracks, sets `total_tracks = len(self.queue)`, logs a
single summary line when `added_count > 0`, and — having no `return`
statement — returns Python `None`, modelled as the second component
`Option Nat := none`. -/
def AppState.add_tracks_to_queue (s : AppState) (ts : String)
    (new_tracks : List String) : AppState × Option Nat :=
  let p := new_tracks.foldl queueInsert (s.queue, 0)
  let s1 := { s with queue := p.1, total_tracks := p.1.length }
  let s2 := if 0 < p.2
    then s1.add_log ts ("Added " ++ toString p.2 ++ " tracks to queue.")
    else s1
  (s2, none)

/-- `AppState.pop_next_track` (`state.py` lines 40-43): pop and return the
head of the FIFO queue, or `none` when the queue is empty. -/
def AppState.pop_next_track (s : AppState) : AppState × Option String :=
  match s.queue with
  | [] => (s, none)
  | t :: rest => ({ s with queue := rest }, some t)

/-! ## config.py -/

/-- The names bound at module level in `config.py` (lines 5-31).  Note
that `PREFERRED_QUALITY` is not among them. -/
def configDefinedNames : List String :=
  [ "BASE_DIR", "DOWNLOADS_DIR", "TRACK_LIST_PATH", "TRACK_LIST_FAILED_PATH"
  , "LOG_FILE", "HIFI_PATH", "MAX_CONCURRENT_DOWNLOADS", "RATE_LIMIT_DELAY"
  , "TIMEOUT_PER_TRACK", "MAX_RETRIES", "ALLOW_QUALITY_FALLBACK"
  , "AUDIO_EXTENSIONS", "DEFAULT_CSV_NAME" ]

/-- The `config` attributes the downloader logic reads.
`PREFERRED_QUALITY` is an `Option` because `config.py` may or may not
define it (in the repository it does not); reading it when absent raises
`AttributeError`. -/
structure Config where
  PREFERRED_QUALITY : Option String
  ALLOW_QUALITY_FALLBACK : Bool
  TIMEOUT_PER_TRACK : Nat
deriving DecidableEq, Repr

/-- The configuration shipped in `config.py`: no `PREFERRED_QUALITY`
binding anywhere in the file, `ALLOW_QUALITY_FALLBACK = True` (line 25,
the second, surviving assignment), `TIMEOUT_PER_TRACK = 300` (line 18). -/
def theConfig : Config :=
  { PREFERRED_QUALITY := none, ALLOW_QUALITY_FALLBACK := true
  , TIMEOUT_PER_TRACK := 300 }

/-! ## async_downloader.py -/

/-- Python exceptions that the modelled code can raise. -/
inductive PyError where
  | attributeError (name : String)
deriving DecidableEq, Repr

/-- Outcome of one `asyncio.create_subprocess_exec` + `communicate()`
invocation of the external tool inside `_run_hifi_command`: the process
completes with a return code and combined stdout+stderr output, the
`asyncio.wait_for` guard (bounded by `config.TIMEOUT_PER_TRACK`) fires,
or some other exception is raised. -/
inductive ToolOutcome where
  | completed (returncode : Int) (output : String)
  | timedOut
  | raised (msg : String)
deriving DecidableEq, Repr

/-- `AsyncDownloader._run_hifi_command` (`async_downloader.py` lines
39-63): on a completed process, success iff `returncode == 0`, paired
with the combined output; on `asyncio.TimeoutError`, `(False, "Timeout")`;
on any other exception `e`, `(False, str(e))`. -/
def run_hifi_command (o : ToolOutcome) : Bool × String :=
  match o with
  | .completed returncode output =>
      if returncode = 0 then (true, output) else (false, output)
  | .timedOut => (false, "Timeout")
  | .raised msg => (false, msg)

/-- Python `str.strip()`: drop leading and trailing whitespace. -/
def pyStrip (s : String) : String :=
  ⟨((s.data.dropWhile fun c => c.isWhitespace).reverse.dropWhile
      fun c => c.isWhitespace).reverse⟩

/-- Python `s[:n]` on a string: the first `n` characters. -/
def pyTake (n : Nat) (s : String) : String :=
  ⟨s.data.take n⟩

/-- Python `msg.split('\n')[-1]`: the suffix of `msg` after its last
newline (for a newline-free `msg`, `msg` itself). -/
def lastLine (msg : String) : String :=
  msg.data.foldl (fun acc c => if c = '\n' then "" else acc.push c) ""

/-- `AsyncDownloader._attempt_download` (`async_downloader.py` lines
65-81): run the tool (`download <query> --output-format <quality_arg>
--output <dir>`); on success return `(True, "Success")`, otherwise
`(False, output.strip())`. -/
def attempt_download (o : ToolOutcome) : Bool × String :=
  let r := run_hifi_command o
  if r.1 then (true, "Success") else (false, pyStrip r.2)

/-- The line `AsyncDownloader._log_failure` appends to
`config.TRACK_LIST_FAILED_PATH` (`async_downloader.py` line 136):
`f"{track} | Reason: {reason}\n"`. -/
def log_failure (track reason : String) : String :=
  track ++ " | Reason: " ++ reason ++ "\n"

/-- The `error_msg = msg.split('\n')[-1] if msg else "Unknown error"`
computation of `download_track` (`async_downloader.py` line 128). -/
def errorMsgOf (msg : String) : String :=
  if msg = "" then "Unknown error" else lastLine msg

/-- The shared-state effects of the failure tail of `download_track`
(`async_downloader.py` lines 125-129): increment `state.fail_count` and
log `f"Failed: {track} - {error_msg[:100]}"`. -/
def failState (ts track msg : String) (s : AppState) : AppState :=
  ({ s with fail_count := s.fail_count + 1 }).add_log ts
    ("Failed: " ++ track ++ " - " ++ pyTake 100 (errorMsgOf msg))

instance {ε α : Type} [DecidableEq ε] [DecidableEq α] :
    DecidableEq (Except ε α) := fun a b =>
  match a, b with
  | .ok x, .ok y =>
      if h : x = y then isTrue (by rw [h])
      else isFalse (by intro he; cases he; exact h rfl)
  | .ok _, .error _ => isFalse (by intro h; cases h)
  | .error _, .ok _ => isFalse (by intro h; cases h)
  | .error e, .error f =>
      if h : e = f then isTrue (by rw [h])
      else isFalse (by intro he; cases he; exact h rfl)

/-- The observable effects of one `download_track` call beyond the shared
state: the `(quality_name, quality_arg)` attempts dispatched to the
external tool, the lines appended to the durable failure log, and the
result (`.ok b` for a normal return of `b`, `.error e` for an escaping
exception). -/
structure DTOut where
  attempts : List (String × String)
  failLogAppends : List String
  result : Except PyError Bool
deriving DecidableEq, Repr

/-- `AsyncDownloader.download_track` (`async_downloader.py` lines
83-131).  `oracle fmt` is the subprocess outcome of the attempt issued
with `--output-format fmt` for this track.  Steps, in source order:
set `state.current_track` (line 89); read `config.PREFERRED_QUALITY`
(line 100), raising `AttributeError` when `config.py` does not define it;
attempt the preferred format (line 102); on success increment
`state.success_count` and log (lines 104-107); otherwise, if
`config.ALLOW_QUALITY_FALLBACK` and the target is not already `"mp3"`,
log and retry once with `"mp3"` (lines 112-122); if all attempts failed,
increment `state.fail_count`, log a truncated error and append the full
failure record (lines 125-131).  (The semaphore, rate-limit sleep and
progress-bar calls have no shared-state effect and are omitted.) -/
def download_track (cfg : Config) (oracle : String → ToolOutcome)
    (ts track : String) (s : AppState) : AppState × DTOut :=
  let s := { s with current_track := track }
  match cfg.PREFERRED_QUALITY with
  | none =>
      (s, { attempts := [], failLogAppends := []
          , result := .error (.attributeError "PREFERRED_QUALITY") })
  | some target_format =>
      let a1 := attempt_download (oracle target_format)
      if a1.1 then
        (({ s with success_count := s.success_count + 1 }).add_log ts
            ("Success: " ++ track)
        , { attempts := [("preferred", target_format)]
          , failLogAppends := [], result := .ok true })
      else if cfg.ALLOW_QUALITY_FALLBACK && target_format != "mp3" then
        let s := s.add_log ts ("Retrying (MP3): " ++ track)
        let a2 := attempt_download (oracle "mp3")
        if a2.1 then
          (({ s with success_count := s.success_count + 1 }).add_log ts
              ("Success (MP3): " ++ track)
          , { attempts := [("preferred", target_format), ("fallback", "mp3")]
            , failLogAppends := [], result := .ok true })
        else
          (failState ts track a2.2 s
          , { attempts := [("preferred", target_format), ("fallback", "mp3")]
            , failLogAppends := [log_failure track a2.2], result := .ok false })
      else
        (failState ts track a1.2 s
        , { attempts := [("preferred", target_format)]
          , failLogAppends := [log_failure track a1.2], result := .ok false })

/-- The code run when the `while True` loop of `process_queue` breaks
(`async_downloader.py` lines 186-187): clear `state.is_downloading` and
log the finish line. -/
def drainFinish (ts : String) (s : AppState) :
    AppState × Except PyError Unit :=
  (({ s with is_downloading := false }).add_log ts
      "Queue empty. Processing finished.", .ok ())

/-- The `while True` drain loop of `process_queue` (`async_downloader.py`
lines 152-187), recursing on a copy of the queue (the invariant
`s.queue = q` holds at every call: popping sets `queue := rest`, and
`download_track` never touches the queue).  Each iteration pops the next
track (line 156) and breaks on `if not track:` (lines 158-168) — Python
falsiness, which is true both when `pop_next_track` returned `None`
(queue empty) and when the popped track is the empty string `""`, which
is thus removed from the queue but not processed; on break
`is_downloading` is cleared and the finish line logged (lines 186-187).
Otherwise it downloads the track and increments
`state.completed_tracks` (lines 177-179).  An exception escaping
`download_track` propagates out of the loop (`.error`). -/
def drainGo (cfg : Config) (oracle : String → String → ToolOutcome)
    (ts : String) : List String → AppState → AppState × Except PyError Unit
  | [], s => drainFinish ts s
  | t :: rest, s =>
      let s := { s with queue := rest }
      if t = "" then drainFinish ts s
      else
        let r := download_track cfg (oracle t) ts t s
        match r.2.result with
        | .error e => (r.1, .error e)
        | .ok _ =>
            drainGo cfg oracle ts rest
              { r.1 with completed_tracks := r.1.completed_tracks + 1 }

/-- `AsyncDownloader.process_queue` (`async_downloader.py` lines
138-195): set `state.is_downloading = True`, log the start line, then
drain the queue.  (Directory creation, console printing and the tqdm
progress bar have no shared-state effect and are omitted.) -/
def process_queue (cfg : Config) (oracle : String → String → ToolOutcome)
    (ts : String) (s : AppState) : AppState × Except PyError Unit :=
  let s := { s with is_downloading := true }
  let s := s.add_log ts "Download processor started."
  drainGo cfg oracle ts s.queue s

/-! ## app.py -/

/-- The `status` values the `/start-download` route can answer with
(`app.py` lines 81-94). -/
inductive StartStatus where
  | already_running
  | empty_queue
  | started
deriving DecidableEq, Repr

/-- `start_download` (`app.py` lines 81-94): reject with
`already_running` while `state.is_downloading`; reject with
`empty_queue` when `state.queue` is empty; otherwise spawn the
background drain thread and answer `started`.  The result is the
status, the shared state as left by the route itself (the route body
never mutates it; the spawned thread does so later), and whether a
drain thread was spawned. -/
def start_download (s : AppState) : StartStatus × AppState × Bool :=
  if s.is_downloading then (.already_running, s, false)
  else if s.queue = [] then (.empty_queue, s, false)
  else (.started, s, true)

/-! ## The counter transition system (claim C2's operations)

`enqueue` is `AppState.add_tracks_to_queue`, `dequeue` is
`AppState.pop_next_track`, and per-track outcome recording bundles the
counter increments the processing of one track performs: exactly one of
`state.success_count += 1` (`async_downloader.py` line 105 or 120) /
`state.fail_count += 1` (line 126), followed by
`state.completed_tracks += 1` (line 179). -/

/-- Per-track outcome recording: one success-or-fail increment plus the
completed-tracks increment. -/
def recordOutcome (ok : Bool) (s : AppState) : AppState :=
  let s1 := if ok then { s with success_count := s.success_count + 1 }
            else { s with fail_count := s.fail_count + 1 }
  { s1 with completed_tracks := s1.completed_tracks + 1 }

/-- States reachable from the initial state by any sequence of enqueue,
dequeue and per-track outcome recording operations. -/
inductive Reach : AppState → Prop where
  | init : Reach state0
  | enqueue (ts : String) (b : List String) {s : AppState} :
      Reach s → Reach (s.add_tracks_to_queue ts b).1
  | dequeue {s : AppState} : Reach s → Reach s.pop_next_track.1
  | record (ok : Bool) {s : AppState} : Reach s → Reach (recordOutcome ok s)

/-! ## Spec-side definitions -/

/-- Spec-side (from the wording of the specification, to be compared with
the queue the code builds): the sequence that contains each distinct
element of `l` exactly once, in first-seen order. -/
def firstSeen : List String → List String
  | [] => []
  | t :: rest => t :: firstSeen (rest.filter fun x => x != t)
termination_by l => l.length
decreasing_by
  simp only [List.length_cons]
  exact Nat.lt_succ_of_le (List.length_filter_le _ rest)

/-- Appending a track to the queue iff it is not already present: the
queue-shaped effect of one loop iteration of `add_tracks_to_queue`. -/
def insertUnique (q : List String) (t : String) : List String :=
  if t ∈ q then q else q ++ [t]

/-- Run a sequence of enqueue calls (each with its timestamp and batch)
from the initial state. -/
def applyEnqueues (batches : List (String × List String)) : AppState :=
  batches.foldl (fun s p => (s.add_tracks_to_queue p.1 p.2).1) state0

/-- Run a sequence of `add_log` calls (each with its timestamp and
message) from the initial state. -/
def applyLogs (ps : List (String × String)) : AppState :=
  ps.foldl (fun s p => s.add_log p.1 p.2) state0

/-- The configuration the downloader logic evidently intends (per the
comment on `async_downloader.py` line 100, "e.g. 'm4a' or 'flac'"):
identical to the shipped `config.py` except that `PREFERRED_QUALITY`
is defined, as `"flac"`. -/
def cfgFix : Config :=
  { PREFERRED_QUALITY := some "flac", ALLOW_QUALITY_FALLBACK := true
  , TIMEOUT_PER_TRACK := 300 }

/-- A state built by code operations only: enqueue two tracks, process
both (pop + record), then enqueue one more track. -/
def reenqueueState : AppState :=
  let s1 := (state0.add_tracks_to_queue "t1" ["A - X", "B - Y"]).1
  let s2 := recordOutcome true s1.pop_next_track.1
  let s3 := recordOutcome true s2.pop_next_track.1
  (s3.add_tracks_to_queue "t2" ["C - Z"]).1

/-- The state reached from the initial state by enqueueing one track and
popping it: the very state the drain loop leaves behind after
`pop_next_track` on a one-element queue. -/
def poppedState : AppState :=
  (state0.add_tracks_to_queue "t1" ["A - X"]).1.pop_next_track.1

/-- A state built by the code's own enqueue: the queue holds the single
empty-string track `""` (which `add_tracks_to_queue` admits — it checks
only membership, not truthiness) and `total_tracks = 1`. -/
def emptyTrackState : AppState :=
  (state0.add_tracks_to_queue "t1" [""]).1

/-- First enqueue of the duplicate-batch scenario. -/
def dupFirst : AppState × Option Nat :=
  state0.add_tracks_to_queue "10:00:00" ["A - X"]

/-- Second, fully-duplicate enqueue of the duplicate-batch scenario. -/
def dupSecond : AppState × Option Nat :=
  dupFirst.1.add_tracks_to_queue "10:00:01" ["A - X"]

end FlacBulk

namespace FlacBulk

/-! ## Helper lemmas: field preservation -/

@[simp] theorem add_log_queue (s : AppState) (ts m : String) :
    (s.add_log ts m).queue = s.queue := rfl

@[simp] theorem add_log_success (s : AppState) (ts m : String) :
    (s.add_log ts m).success_count = s.success_count := rfl

@[simp] theorem add_log_fail (s : AppState) (ts m : String) :
    (s.add_log ts m).fail_count = s.fail_count := rfl

@[simp] theorem add_log_completed (s : AppState) (ts m : String) :
    (s.add_log ts m).completed_tracks = s.completed_tracks := rfl

@[simp] theorem add_log_total (s : AppState) (ts m : String) :
    (s.add_log ts m).total_tracks = s.total_tracks := rfl

theorem add_tracks_success (s : AppState) (ts : String) (b : List String) :
    (s.add_tracks_to_queue ts b).1.success_count = s.success_count := by
  simp only [AppState.add_tracks_to_queue]
  split <;> simp

theorem add_tracks_fail (s : AppState) (ts : String) (b : List String) :
    (s.add_tracks_to_queue ts b).1.fail_count = s.fail_count := by
  simp only [AppState.add_tracks_to_queue]
  split <;> simp

theorem add_tracks_completed (s : AppState) (ts : String) (b : List String) :
    (s.add_tracks_to_queue ts b).1.completed_tracks = s.completed_tracks := by
  simp only [AppState.add_tracks_to_queue]
  split <;> simp

theorem pop_success (s : AppState) :
    s.pop_next_track.1.success_count = s.success_count := by
  cases hq : s.queue <;> simp [AppState.pop_next_track, hq]

theorem pop_fail (s : AppState) :
    s.pop_next_track.1.fail_count = s.fail_count := by
  cases hq : s.queue <;> simp [AppState.pop_next_track, hq]

theorem pop_completed (s : AppState) :
    s.pop_next_track.1.completed_tracks = s.completed_tracks := by
  cases hq : s.queue <;> simp [AppState.pop_next_track, hq]

theorem recordOutcome_sum (ok : Bool) (s : AppState) :
    (recordOutcome ok s).success_count + (recordOutcome ok s).fail_count
      = s.success_count + s.fail_count + 1 := by
  cases ok <;> simp [recordOutcome] <;> omega

theorem recordOutcome_completed (ok : Bool) (s : AppState) :
    (recordOutcome ok s).completed_tracks = s.completed_tracks + 1 := by
  cases ok <;> simp [recordOutcome]

/-! ## Claim C1 -/

/-- Claim C1 counterexample: a drain run over the non-empty queue
`[""]` — a state the program's own enqueue builds, since
`add_tracks_to_queue` checks only membership, not truthiness — does
not abort on its first track: the loop's `if not track:` break
(`async_downloader.py` line 158) fires on the falsy empty-string track,
so the run finishes cleanly with `.ok ()`, no `AttributeError` and
nothing completed.  This refutes the claim's tail "every drain run
aborts on its first track". -/
theorem drain_empty_track_no_abort_counterexample :
    emptyTrackState.queue = [""]
    ∧ emptyTrackState.queue ≠ []
    ∧ (process_queue theConfig (fun _ _ => ToolOutcome.timedOut) "t2"
        emptyTrackState).2 = .ok ()
    ∧ (process_queue theConfig (fun _ _ => ToolOutcome.timedOut) "t2"
        emptyTrackState).1.completed_tracks = 0 :=
  ⟨rfl, by decide, rfl, rfl⟩

/-- Claim C1, amended: `config.py` defines no attribute
`PREFERRED_QUALITY`, so for every track (and every behaviour of the
external tool) `download_track` under the shipped configuration raises
the attribute-lookup error before issuing any external-tool attempt —
the dispatched-attempt list is empty, no failure record is written, and
no outcome counter moves; consequently every drain run whose first
popped track is a non-empty string aborts on that track with that
error, completing no tracks — while a drain run headed by the falsy
empty-string track (the one exception to "aborts on its first track")
stops cleanly at the `if not track:` break without processing
anything. -/
theorem download_aborts_on_missing_preferred_quality :
    ("PREFERRED_QUALITY" ∉ configDefinedNames
      ∧ theConfig.PREFERRED_QUALITY = none)
    ∧ (∀ (oracle : String → ToolOutcome) (ts track : String) (s : AppState),
        (download_track theConfig oracle ts track s).2.result
            = .error (.attributeError "PREFERRED_QUALITY")
        ∧ (download_track theConfig oracle ts track s).2.attempts = []
        ∧ (download_track theConfig oracle ts track s).2.failLogAppends = []
        ∧ (download_track theConfig oracle ts track s).1.success_count
            = s.success_count
        ∧ (download_track theConfig oracle ts track s).1.fail_count
            = s.fail_count)
    ∧ (∀ (oracle : String → String → ToolOutcome) (ts : String)
          (s : AppState) (t : String) (rest : List String),
        s.queue = t :: rest → t ≠ "" →
        (process_queue theConfig oracle ts s).2
            = .error (.attributeError "PREFERRED_QUALITY")
        ∧ (process_queue theConfig oracle ts s).1.completed_tracks
            = s.completed_tracks)
    ∧ (∀ (oracle : String → String → ToolOutcome) (ts : String)
          (s : AppState) (rest : List String),
        s.queue = "" :: rest →
        (process_queue theConfig oracle ts s).2 = .ok ()
        ∧ (process_queue theConfig oracle ts s).1.completed_tracks
            = s.completed_tracks) := by
  refine ⟨⟨by decide, rfl⟩, fun oracle ts track s => ⟨rfl, rfl, rfl, rfl, rfl⟩,
    fun oracle ts s t rest hq ht => ?_, fun oracle ts s rest hq => ?_⟩
  · simp [process_queue, drainGo, download_track, theConfig, hq, ht]
  · simp [process_queue, drainGo, drainFinish, AppState.add_log, hq]

/-- Witness for the amended C1: a concrete drain run over the queue
holding the single non-empty track `"A - X"` aborts with the attribute
error and completes nothing. -/
theorem download_aborts_on_missing_preferred_quality_witness :
    (process_queue theConfig (fun _ _ => ToolOutcome.timedOut) "12:00:01"
        (state0.add_tracks_to_queue "12:00:00" ["A - X"]).1).2
      = .error (.attributeError "PREFERRED_QUALITY")
    ∧ (process_queue theConfig (fun _ _ => ToolOutcome.timedOut) "12:00:01"
        (state0.add_tracks_to_queue "12:00:00" ["A - X"]).1).1.completed_tracks
      = (state0.add_tracks_to_queue "12:00:00" ["A - X"]).1.completed_tracks :=
  download_aborts_on_missing_preferred_quality.2.2.1
    (fun _ _ => ToolOutcome.timedOut) "12:00:01"
    (state0.add_tracks_to_queue "12:00:00" ["A - X"]).1 "A - X" [] rfl
    (by decide)

/-! ## Claim C2 -/

/-- Claim C2 counterexample: the state reached by enqueue
`["A - X", "B - Y"]`, dequeue, record, dequeue, record, enqueue
`["C - Z"]` — a sequence of exactly the claim's operations, respecting
the drain loop's pop-then-record protocol — has `completed_tracks = 2`
but `total_tracks = 1`, because `add_tracks_to_queue` resets
`total_tracks` to the current queue length, forgetting popped tracks.
So `completed ≤ total` fails in a reachable state. -/
theorem counters_invariant_counterexample :
    Reach reenqueueState
    ∧ reenqueueState.completed_tracks = 2
    ∧ reenqueueState.total_tracks = 1
    ∧ ¬ (reenqueueState.completed_tracks ≤ reenqueueState.total_tracks) := by
  refine ⟨?_, by decide, by decide, by decide⟩
  exact Reach.enqueue "t2" ["C - Z"]
    (Reach.record true (Reach.dequeue
      (Reach.record true (Reach.dequeue
        (Reach.enqueue "t1" ["A - X", "B - Y"] Reach.init)))))

/-- Claim C2, amended: in every state reachable by any sequence of
enqueue, dequeue and (atomic) per-track outcome recording,
`succeeded + failed = completed` (so in particular
`succeeded + failed ≤ completed`); the other half of the claimed
invariant, `completed ≤ total`, does not hold in general (see the
counterexample). -/
theorem counters_sum_eq_completed_of_reach :
    ∀ s : AppState, Reach s →
      s.success_count + s.fail_count = s.completed_tracks := by
  intro s h
  induction h with
  | init => rfl
  | enqueue ts b _ ih =>
      rw [add_tracks_success, add_tracks_fail, add_tracks_completed]
      exact ih
  | dequeue _ ih =>
      rw [pop_success, pop_fail, pop_completed]
      exact ih
  | record ok _ ih =>
      rw [recordOutcome_sum, recordOutcome_completed, ih]

/-- Witness for the amended C2 at a concrete reachable state (one
outcome recorded from the initial state). -/
theorem counters_sum_eq_completed_witness :
    (recordOutcome true state0).success_count
      + (recordOutcome true state0).fail_count
      = (recordOutcome true state0).completed_tracks :=
  counters_sum_eq_completed_of_reach (recordOutcome true state0)
    (Reach.record true Reach.init)

/-! ## Claim C4 -/

@[simp] theorem failState_success (ts track m : String) (s : AppState) :
    (failState ts track m s).success_count = s.success_count := rfl

@[simp] theorem failState_fail (ts track m : String) (s : AppState) :
    (failState ts track m s).fail_count = s.fail_count + 1 := rfl

@[simp] theorem failState_completed (ts track m : String) (s : AppState) :
    (failState ts track m s).completed_tracks = s.completed_tracks := rfl

@[simp] theorem failState_total (ts track m : String) (s : AppState) :
    (failState ts track m s).total_tracks = s.total_tracks := rfl

@[simp] theorem failState_queue (ts track m : String) (s : AppState) :
    (failState ts track m s).queue = s.queue := rfl

/-- When `download_track` returns normally it records exactly one
outcome: the two outcome counters move by one in total, and the
completed count, the total count and the queue are untouched. -/
theorem download_track_ok_counts (cfg : Config)
    (oracle : String → ToolOutcome) (ts track : String) (s : AppState)
    (b : Bool)
    (h : (download_track cfg oracle ts track s).2.result = .ok b) :
    (download_track cfg oracle ts track s).1.success_count
        + (download_track cfg oracle ts track s).1.fail_count
      = s.success_count + s.fail_count + 1
    ∧ (download_track cfg oracle ts track s).1.completed_tracks
        = s.completed_tracks
    ∧ (download_track cfg oracle ts track s).1.total_tracks
        = s.total_tracks
    ∧ (download_track cfg oracle ts track s).1.queue = s.queue := by
  cases hp : cfg.PREFERRED_QUALITY with
  | none => simp [download_track, hp] at h
  | some tf =>
      simp only [download_track, hp] at h ⊢
      split
      case isTrue => simp [AppState.add_log]; omega
      case isFalse h1 =>
        split
        case isTrue =>
          split
          case isTrue => simp [AppState.add_log]; omega
          case isFalse => simp [AppState.add_log, failState]; omega
        case isFalse => simp [AppState.add_log, failState]; omega

/-- Drain-loop invariant: starting from a state whose pending queue
holds no falsy empty-string track, whose outcome counters sum to its
completed count and whose total equals completed plus the pending-queue
length, a normally-terminating drain leaves
`succeeded + failed = completed = total`. -/
theorem drainGo_fresh_counts (cfg : Config)
    (oracle : String → String → ToolOutcome) (ts : String) :
    ∀ (q : List String) (s s' : AppState),
      "" ∉ q →
      s.success_count + s.fail_count = s.completed_tracks →
      s.completed_tracks + q.length = s.total_tracks →
      drainGo cfg oracle ts q s = (s', .ok ()) →
      s'.success_count + s'.fail_count = s'.completed_tracks
        ∧ s'.completed_tracks = s'.total_tracks := by
  intro q
  induction q with
  | nil =>
      intro s s' _ h1 h2 h3
      simp only [List.length_nil, Nat.add_zero] at h2
      unfold drainGo at h3
      unfold drainFinish at h3
      rw [Prod.mk.injEq] at h3
      rw [← h3.1]
      simp only [add_log_success, add_log_fail, add_log_completed,
        add_log_total]
      exact ⟨h1, by omega⟩
  | cons t rest ih =>
      intro s s' hne h1 h2 h3
      have ht : t ≠ "" := by
        rintro rfl
        exact hne (List.mem_cons_self _ _)
      unfold drainGo at h3
      dsimp only at h3
      rw [if_neg ht] at h3
      split at h3
      case h_1 => exact absurd h3 (by simp)
      case h_2 b heq =>
        have hc := download_track_ok_counts cfg (oracle t) ts t
          { s with queue := rest } b heq
        refine ih _ s' (fun hm => hne (List.mem_cons_of_mem t hm)) ?_ ?_ h3
        · simp only [AppState.completed_tracks] at hc ⊢
          omega
        · simp only [AppState.completed_tracks, AppState.total_tracks,
            List.length_cons] at hc h2 ⊢
          omega

/-- Claim C4, amended: for every run of the drain loop that starts from
a state with zero outcome and completed counters, with `total_tracks`
equal to the queue length (as after a first batch of enqueues), and
with no empty-string track in the queue (a falsy track trips the
loop's `if not track:` break, ending the run early without processing
it), and that terminates normally by observing the queue empty, the
final state satisfies
`success_count + fail_count = completed_tracks = total_tracks`.
Without the fresh-start precondition the claim fails (see the
counterexample), and without the no-falsy-track precondition a fresh
run over the queue `[""]` ends cleanly with `completed = 0` but
`total = 1`. -/
theorem drain_fresh_run_final_counts (cfg : Config)
    (oracle : String → String → ToolOutcome) (ts : String)
    (s s' : AppState)
    (h1 : s.success_count = 0) (h2 : s.fail_count = 0)
    (h3 : s.completed_tracks = 0)
    (h4 : s.total_tracks = s.queue.length)
    (h0 : "" ∉ s.queue)
    (h5 : process_queue cfg oracle ts s = (s', .ok ())) :
    s'.success_count + s'.fail_count = s'.completed_tracks
      ∧ s'.completed_tracks = s'.total_tracks := by
  unfold process_queue at h5
  dsimp only at h5
  refine drainGo_fresh_counts cfg oracle ts _ _ s' ?_ ?_ ?_ h5
  · simpa using h0
  · simp [AppState.add_log, h1, h2, h3]
  · simp [AppState.add_log, h3, h4]

/-- Claim C4 counterexample: running the drain loop on `poppedState`
(the state the program itself produces by enqueueing `"A - X"` and
popping it) terminates normally by observing the queue empty, yet at
that moment `success_count + fail_count = completed_tracks = 0` while
`total_tracks = 1`, refuting
`success_count + fail_count == completed_tracks == total_tracks`. -/
theorem drain_completed_ne_total_counterexample :
    (process_queue theConfig (fun _ _ => ToolOutcome.timedOut) "t2"
        poppedState).2 = .ok ()
    ∧ (process_queue theConfig (fun _ _ => ToolOutcome.timedOut) "t2"
        poppedState).1.completed_tracks = 0
    ∧ (process_queue theConfig (fun _ _ => ToolOutcome.timedOut) "t2"
        poppedState).1.total_tracks = 1
    ∧ (process_queue theConfig (fun _ _ => ToolOutcome.timedOut) "t2"
          poppedState).1.completed_tracks
        ≠ (process_queue theConfig (fun _ _ => ToolOutcome.timedOut) "t2"
          poppedState).1.total_tracks := by
  exact ⟨rfl, rfl, rfl, by decide⟩

/-- Witness for the amended C4: a concrete fresh one-track run whose
download succeeds ends with `1 + 0 = 1 = 1`. -/
theorem drain_fresh_run_final_counts_witness :
    (process_queue cfgFix (fun _ _ => ToolOutcome.completed 0 "ok") "t2"
        (state0.add_tracks_to_queue "t1" ["A - X"]).1).1.success_count
      + (process_queue cfgFix (fun _ _ => ToolOutcome.completed 0 "ok") "t2"
        (state0.add_tracks_to_queue "t1" ["A - X"]).1).1.fail_count
      = (process_queue cfgFix (fun _ _ => ToolOutcome.completed 0 "ok") "t2"
        (state0.add_tracks_to_queue "t1" ["A - X"]).1).1.completed_tracks
    ∧ (process_queue cfgFix (fun _ _ => ToolOutcome.completed 0 "ok") "t2"
        (state0.add_tracks_to_queue "t1" ["A - X"]).1).1.completed_tracks
      = (process_queue cfgFix (fun _ _ => ToolOutcome.completed 0 "ok") "t2"
        (state0.add_tracks_to_queue "t1" ["A - X"]).1).1.total_tracks :=
  drain_fresh_run_final_counts cfgFix (fun _ _ => ToolOutcome.completed 0 "ok")
    "t2" (state0.add_tracks_to_queue "t1" ["A - X"]).1 _ rfl rfl rfl rfl
    (by decide) rfl

/-! ## Claim C3 -/

theorem foldl_queueInsert_fst (b : List String) :
    ∀ (q : List String) (n : Nat),
      (b.foldl queueInsert (q, n)).1 = b.foldl insertUnique q := by
  induction b with
  | nil => intro q n; rfl
  | cons t rest ih =>
      intro q n
      by_cases ht : t ∈ q <;>
        simp [List.foldl_cons, queueInsert, insertUnique, ht, ih]

theorem add_tracks_queue (s : AppState) (ts : String) (b : List String) :
    (s.add_tracks_to_queue ts b).1.queue = b.foldl insertUnique s.queue := by
  simp only [AppState.add_tracks_to_queue]
  split <;> simp [foldl_queueInsert_fst]

theorem applyEnqueues_queue_aux (batches : List (String × List String)) :
    ∀ s : AppState,
      (batches.foldl (fun s p => (s.add_tracks_to_queue p.1 p.2).1) s).queue
        = ((batches.map Prod.snd).flatten).foldl insertUnique s.queue := by
  induction batches with
  | nil => intro s; rfl
  | cons b rest ih =>
      intro s
      rw [List.foldl_cons, ih ((s.add_tracks_to_queue b.1 b.2).1),
        add_tracks_queue, List.map_cons, List.flatten_cons, List.foldl_append]

theorem foldl_insertUnique_eq_firstSeen (l : List String) :
    ∀ q : List String,
      l.foldl insertUnique q
        = q ++ firstSeen (l.filter fun x => decide (x ∉ q)) := by
  induction l with
  | nil => intro q; simp [firstSeen]
  | cons t rest ih =>
      intro q
      by_cases ht : t ∈ q
      · rw [List.foldl_cons]
        have h1 : insertUnique q t = q := by simp [insertUnique, ht]
        rw [h1, ih q]
        have h2 : (t :: rest).filter (fun x => decide (x ∉ q))
            = rest.filter (fun x => decide (x ∉ q)) := by
          simp [List.filter_cons, ht]
        rw [h2]
      · rw [List.foldl_cons]
        have h1 : insertUnique q t = q ++ [t] := by simp [insertUnique, ht]
        rw [h1, ih (q ++ [t])]
        have h2 : (t :: rest).filter (fun x => decide (x ∉ q))
            = t :: rest.filter (fun x => decide (x ∉ q)) := by
          simp [List.filter_cons, ht]
        rw [h2]
        have h3 : firstSeen (t :: rest.filter fun x => decide (x ∉ q))
            = t :: firstSeen ((rest.filter fun x => decide (x ∉ q)).filter
                fun x => x != t) := by
          rw [firstSeen]
        rw [h3]
        have h4 : (rest.filter fun x => decide (x ∉ q ++ [t]))
            = ((rest.filter fun x => decide (x ∉ q)).filter fun x => x != t) := by
          rw [List.filter_filter]
          apply List.filter_congr
          intro x _
          by_cases hx : x ∈ q <;> by_cases hxt : x = t <;>
            simp [hx, hxt, List.mem_append]
        rw [h4]
        simp

theorem mem_foldl_insertUnique (l : List String) :
    ∀ (q : List String) (t : String),
      t ∈ l.foldl insertUnique q ↔ t ∈ q ∨ t ∈ l := by
  induction l with
  | nil => intro q t; simp
  | cons a rest ih =>
      intro q t
      rw [List.foldl_cons, ih]
      by_cases ha : a ∈ q
      · simp only [insertUnique, if_pos ha, List.mem_cons]
        constructor
        · rintro (h | h)
          · exact Or.inl h
          · exact Or.inr (Or.inr h)
        · rintro (h | h | h)
          · exact Or.inl h
          · exact Or.inl (h ▸ ha)
          · exact Or.inr h
      · simp only [insertUnique, if_neg ha, List.mem_append,
          List.mem_singleton, List.mem_cons]
        tauto

theorem nodup_foldl_insertUnique (l : List String) :
    ∀ q : List String, q.Nodup → (l.foldl insertUnique q).Nodup := by
  induction l with
  | nil => intro q hq; exact hq
  | cons a rest ih =>
      intro q hq
      rw [List.foldl_cons]
      apply ih
      by_cases ha : a ∈ q
      · simpa [insertUnique, ha] using hq
      · simp [insertUnique, ha, List.nodup_append, hq]

/-- Claim C3: starting from the empty queue, any sequence of enqueue
calls leaves a queue equal to the first-seen deduplication of all
submitted tracks — each distinct track exactly once (`Nodup`, membership
iff submitted), in first-seen submission order (`firstSeen`) — and the
concrete scenario enqueue `["A - X", "B - Y", "A - X"]` yields exactly
`["A - X", "B - Y"]` with `total_tracks = 2`. -/
theorem enqueue_dedup_first_seen :
    (∀ batches : List (String × List String),
      (applyEnqueues batches).queue
          = firstSeen ((batches.map Prod.snd).flatten)
      ∧ (applyEnqueues batches).queue.Nodup
      ∧ (∀ t, t ∈ (applyEnqueues batches).queue
            ↔ t ∈ (batches.map Prod.snd).flatten))
    ∧ (applyEnqueues [("t1", ["A - X", "B - Y", "A - X"])]).queue
        = ["A - X", "B - Y"]
    ∧ (applyEnqueues [("t1", ["A - X", "B - Y", "A - X"])]).total_tracks
        = 2 := by
  have h0 : state0.queue = ([] : List String) := rfl
  have hfilter : ∀ l : List String,
      (l.filter fun x => decide (x ∉ ([] : List String))) = l := by
    intro l
    apply List.filter_eq_self.mpr
    intro a _
    simp
  refine ⟨fun batches => ⟨?_, ?_, ?_⟩, by decide, by decide⟩
  · rw [applyEnqueues, applyEnqueues_queue_aux batches state0, h0,
      foldl_insertUnique_eq_firstSeen, hfilter, List.nil_append]
  · rw [applyEnqueues, applyEnqueues_queue_aux batches state0, h0]
    exact nodup_foldl_insertUnique _ _ List.nodup_nil
  · intro t
    rw [applyEnqueues, applyEnqueues_queue_aux batches state0, h0,
      mem_foldl_insertUnique]
    simp

/-! ## Claim C5 -/

/-- Claim C5 (code bug): under the shipped `config.py` no preferred
attempt is ever made — `download_track` raises before dispatching — so
the claimed retry discipline is unreachable; with `PREFERRED_QUALITY`
defined as the code comment intends, the surviving logic does implement
it: a failed preferred attempt with fallback enabled and preferred not
`"mp3"` is retried exactly once with `"mp3"` before being marked
failed; with fallback disabled (or preferred already `"mp3"`), the
track is marked failed after exactly one attempt. -/
theorem fallback_retry_discipline :
    ((download_track theConfig (fun _ => ToolOutcome.completed 1 "err")
        "t" "Song - Artist" state0).2.attempts = []
      ∧ (download_track theConfig (fun _ => ToolOutcome.completed 1 "err")
          "t" "Song - Artist" state0).2.result
        = .error (.attributeError "PREFERRED_QUALITY"))
    ∧ ((download_track cfgFix (fun _ => ToolOutcome.completed 1 "err")
          "t" "Song - Artist" state0).2.attempts
        = [("preferred", "flac"), ("fallback", "mp3")]
      ∧ (download_track cfgFix (fun _ => ToolOutcome.completed 1 "err")
          "t" "Song - Artist" state0).2.result = .ok false
      ∧ (download_track cfgFix (fun _ => ToolOutcome.completed 1 "err")
          "t" "Song - Artist" state0).1.fail_count = 1)
    ∧ ((download_track cfgFix
          (fun fmt => if fmt = "mp3" then ToolOutcome.completed 0 "ok"
            else ToolOutcome.completed 1 "err")
          "t" "Song - Artist" state0).2.attempts
        = [("preferred", "flac"), ("fallback", "mp3")]
      ∧ (download_track cfgFix
          (fun fmt => if fmt = "mp3" then ToolOutcome.completed 0 "ok"
            else ToolOutcome.completed 1 "err")
          "t" "Song - Artist" state0).2.result = .ok true)
    ∧ ((download_track { cfgFix with ALLOW_QUALITY_FALLBACK := false }
          (fun _ => ToolOutcome.completed 1 "err")
          "t" "Song - Artist" state0).2.attempts = [("preferred", "flac")]
      ∧ (download_track { cfgFix with ALLOW_QUALITY_FALLBACK := false }
          (fun _ => ToolOutcome.completed 1 "err")
          "t" "Song - Artist" state0).2.result = .ok false)
    ∧ ((download_track { cfgFix with PREFERRED_QUALITY := some "mp3" }
          (fun _ => ToolOutcome.completed 1 "err")
          "t" "Song - Artist" state0).2.attempts = [("preferred", "mp3")]
      ∧ (download_track { cfgFix with PREFERRED_QUALITY := some "mp3" }
          (fun _ => ToolOutcome.completed 1 "err")
          "t" "Song - Artist" state0).2.result = .ok false) := by
  exact ⟨⟨rfl, rfl⟩, ⟨rfl, rfl, rfl⟩, ⟨rfl, rfl⟩, ⟨rfl, rfl⟩, ⟨rfl, rfl⟩⟩

/-! ## Claim C6 -/

/-- Claim C6 counterexample: re-submitting the batch `["A - X"]` after it
was already enqueued returns `None` — not a count — and appends no log
line at all (the code logs only when `added_count > 0`), refuting
"returns the count of newly added tracks ... and appends exactly one log
line summarizing the batch". -/
theorem enqueue_return_and_log_counterexample :
    dupSecond.2 = none
    ∧ dupSecond.1.recent_logs = dupFirst.1.recent_logs
    ∧ dupFirst.1.recent_logs.length = 1
    ∧ dupSecond.1.queue = ["A - X"] := ⟨rfl, rfl, rfl, rfl⟩

theorem add_log_head (s : AppState) (ts m : String) :
    (s.add_log ts m).recent_logs.head? = some (logFmt ts m) := by
  unfold AppState.add_log
  dsimp only
  split
  case isTrue h =>
    cases hl : s.recent_logs with
    | nil => rw [hl] at h; simp at h
    | cons y ys => rfl
  case isFalse h => rfl

theorem add_log_length_le (s : AppState) (ts m : String) :
    (s.add_log ts m).recent_logs.length ≤ s.recent_logs.length + 1 := by
  unfold AppState.add_log
  dsimp only
  split
  · rw [List.length_dropLast]
    simp
  · simp

/-- Claim C6, amended: `enqueue` ignores tracks already present in the
queue (appending only the first-seen new ones), returns `None` rather
than the added count, and appends exactly one summarizing log line when
at least one track was newly added — none otherwise. -/
theorem enqueue_effects (s : AppState) (ts : String) (b : List String) :
    (s.add_tracks_to_queue ts b).2 = none
    ∧ (s.add_tracks_to_queue ts b).1.queue
        = s.queue ++ firstSeen (b.filter fun x => decide (x ∉ s.queue))
    ∧ ((b.foldl queueInsert (s.queue, 0)).2 = 0 →
        (s.add_tracks_to_queue ts b).1.recent_logs = s.recent_logs)
    ∧ (0 < (b.foldl queueInsert (s.queue, 0)).2 →
        (s.add_tracks_to_queue ts b).1.recent_logs.head?
          = some (logFmt ts ("Added "
              ++ toString (b.foldl queueInsert (s.queue, 0)).2
              ++ " tracks to queue."))
        ∧ (s.add_tracks_to_queue ts b).1.recent_logs.length
            ≤ s.recent_logs.length + 1) := by
  refine ⟨rfl, ?_, ?_, ?_⟩
  · rw [add_tracks_queue, foldl_insertUnique_eq_firstSeen]
  · intro h
    simp [AppState.add_tracks_to_queue, h]
  · intro h
    constructor
    · simp only [AppState.add_tracks_to_queue]
      rw [if_pos h]
      exact add_log_head _ _ _
    · simp only [AppState.add_tracks_to_queue]
      rw [if_pos h]
      exact add_log_length_le _ _ _

/-- Witness for the amended C6: enqueueing `["A - X"]` into the initial
state returns `None` and leaves the one-line batch summary at the head
of the recent logs. -/
theorem enqueue_effects_witness :
    (state0.add_tracks_to_queue "10:00:00" ["A - X"]).2 = none
    ∧ (state0.add_tracks_to_queue "10:00:00" ["A - X"]).1.recent_logs.head?
        = some (logFmt "10:00:00" "Added 1 tracks to queue.") :=
  ⟨(enqueue_effects state0 "10:00:00" ["A - X"]).1,
    ((enqueue_effects state0 "10:00:00" ["A - X"]).2.2.2 (by decide)).1⟩

/-! ## Claim C7 -/

/-- Claim C7 (code bug): under the shipped `config.py` no track ever
fails an attempt — `download_track` raises first — so no failure record
is ever appended and the claimed durable trace never materializes; with
`PREFERRED_QUALITY` defined, a track failing all attempts appends
exactly one record of the form `"<track> | Reason: <message>"` (the
message of the last attempt), but the record occupies one line only
when the tool output contains no newline — a multi-line tool output
yields a record spanning several lines. -/
theorem failure_record_logging :
    ((download_track theConfig (fun _ => ToolOutcome.completed 1 "boom")
        "t" "Song - Artist" state0).2.failLogAppends = []
      ∧ (download_track theConfig (fun _ => ToolOutcome.completed 1 "boom")
          "t" "Song - Artist" state0).2.result
        = .error (.attributeError "PREFERRED_QUALITY"))
    ∧ ((download_track cfgFix (fun _ => ToolOutcome.completed 1 "nope")
          "t" "Song - Artist" state0).2.failLogAppends
        = ["Song - Artist | Reason: nope\n"])
    ∧ ((download_track cfgFix
          (fun _ => ToolOutcome.completed 1 "line1\nLookupError: nah")
          "t" "Song - Artist" state0).2.failLogAppends
        = ["Song - Artist | Reason: line1\nLookupError: nah\n"]
      ∧ ("Song - Artist | Reason: line1\nLookupError: nah\n").data.count '\n'
          = 2)
    ∧ (∀ track reason : String,
        log_failure track reason = track ++ " | Reason: " ++ reason ++ "\n") := by
  exact ⟨⟨rfl, rfl⟩, rfl, ⟨rfl, by decide⟩, fun _ _ => rfl⟩

/-! ## Claim C8 -/

theorem add_log_take (s : AppState) (ts m : String)
    (h : s.recent_logs.length ≤ 50) :
    (s.add_log ts m).recent_logs = (logFmt ts m :: s.recent_logs).take 50 := by
  unfold AppState.add_log
  dsimp only
  split
  case isTrue hgt =>
    have h51 : (logFmt ts m :: s.recent_logs).length = 51 := by
      simp only [List.length_cons] at hgt ⊢
      omega
    rw [List.dropLast_eq_take, h51]
  case isFalse hle =>
    rw [List.take_of_length_le]
    simp only [List.length_cons] at hle ⊢
    omega

theorem take_append_take (A B : List String) (n : Nat) :
    (A ++ B.take n).take n = (A ++ B).take n := by
  rw [List.take_append_eq_append_take, List.take_append_eq_append_take,
    List.take_take, Nat.min_eq_left (Nat.sub_le n A.length)]

theorem applyLogs_aux (ps : List (String × String)) :
    ∀ s : AppState, s.recent_logs.length ≤ 50 →
      (ps.foldl (fun s p => s.add_log p.1 p.2) s).recent_logs
        = ((ps.map fun p => logFmt p.1 p.2).reverse ++ s.recent_logs).take 50 := by
  induction ps with
  | nil =>
      intro s h
      rw [List.foldl_nil, List.map_nil, List.reverse_nil, List.nil_append,
        List.take_of_length_le h]
  | cons p ps ih =>
      intro s h
      rw [List.foldl_cons, ih (s.add_log p.1 p.2)
        (by rw [add_log_take s p.1 p.2 h]; simp), add_log_take s p.1 p.2 h,
        take_append_take, List.map_cons, List.reverse_cons,
        List.append_assoc, List.singleton_append]

/-- Claim C8: after any sequence of `add_log` calls from the initial
state, the recent-log list equals the newest-first reversal of the
formatted messages truncated to 50 — so it holds at most 50 entries,
each call inserts its entry at the front, and overflow discards the
oldest entry. -/
theorem recent_logs_ring :
    (∀ ps : List (String × String),
      (applyLogs ps).recent_logs
          = ((ps.map fun p => logFmt p.1 p.2).reverse).take 50
      ∧ (applyLogs ps).recent_logs.length ≤ 50)
    ∧ (∀ (s : AppState) (ts m : String),
        (s.add_log ts m).recent_logs.head? = some (logFmt ts m)) := by
  refine ⟨fun ps => ?_, add_log_head⟩
  have h := applyLogs_aux ps state0 (by simp [state0])
  have h0 : state0.recent_logs = ([] : List String) := rfl
  rw [h0, List.append_nil] at h
  constructor
  · rw [applyLogs, h]
  · rw [applyLogs, h]
    simp [List.length_take]

/-! ## Claim C9 -/

/-- Claim C9: `start_download` answers `already_running` while the
active flag is set, without spawning a drain loop or touching the
state; answers `empty_queue` on an empty queue while idle, without
transitioning to running or touching the state; and otherwise answers
`started` and spawns the drain thread. -/
theorem start_download_statuses (s : AppState) :
    (s.is_downloading = true →
      start_download s = (.already_running, s, false))
    ∧ (s.is_downloading = false → s.queue = [] →
      start_download s = (.empty_queue, s, false)
      ∧ (start_download s).2.1.is_downloading = false)
    ∧ (s.is_downloading = false → s.queue ≠ [] →
      start_download s = (.started, s, true)) := by
  refine ⟨fun h => ?_, fun h hq => ?_, fun h hq => ?_⟩
  · simp [start_download, h]
  · constructor <;> simp [start_download, h, hq]
  · simp [start_download, h, hq]

/-- Witness for C9: all three branches at concrete states. -/
theorem start_download_statuses_witness :
    start_download { state0 with is_downloading := true }
        = (.already_running, { state0 with is_downloading := true }, false)
    ∧ start_download state0 = (.empty_queue, state0, false)
    ∧ start_download (state0.add_tracks_to_queue "t" ["A - X"]).1
        = (.started, (state0.add_tracks_to_queue "t" ["A - X"]).1, true) :=
  ⟨(start_download_statuses { state0 with is_downloading := true }).1 rfl,
    ((start_download_statuses state0).2.1 rfl rfl).1,
    (start_download_statuses (state0.add_tracks_to_queue "t" ["A - X"]).1).2.2
      rfl (by decide)⟩

/-! ## Claim C10 -/

/-- Claim C10: a tool invocation that exceeds the per-track timeout
(default 300 seconds, `config.TIMEOUT_PER_TRACK`) yields the attempt
result failure with reason exactly `"Timeout"`, and such a failure is
eligible for the fallback retry exactly like any other attempt failure:
`download_track`'s attempt list, result and outcome counters do not
depend on which failure message the preferred attempt produced. -/
theorem timeout_attempt_failure :
    theConfig.TIMEOUT_PER_TRACK = 300
    ∧ run_hifi_command ToolOutcome.timedOut = (false, "Timeout")
    ∧ attempt_download ToolOutcome.timedOut = (false, "Timeout")
    ∧ (∀ (cfg : Config) (o o' : String → ToolOutcome)
          (ts track : String) (s : AppState) (tf : String),
        cfg.PREFERRED_QUALITY = some tf →
        (attempt_download (o tf)).1 = false →
        (attempt_download (o' tf)).1 = false →
        o "mp3" = o' "mp3" →
        (download_track cfg o ts track s).2.attempts
            = (download_track cfg o' ts track s).2.attempts
        ∧ (download_track cfg o ts track s).2.result
            = (download_track cfg o' ts track s).2.result
        ∧ (download_track cfg o ts track s).1.success_count
            = (download_track cfg o' ts track s).1.success_count
        ∧ (download_track cfg o ts track s).1.fail_count
            = (download_track cfg o' ts track s).1.fail_count) := by
  refine ⟨rfl, rfl, rfl, ?_⟩
  intro cfg o o' ts track s tf hp h2 h3 h4
  simp only [download_track, hp]
  simp only [h2, h3, Bool.false_eq_true, if_false]
  split
  · rw [h4]
    exact ⟨rfl, rfl, rfl, rfl⟩
  · exact ⟨rfl, rfl, by simp [failState], by simp [failState]⟩

/-- Witness for C10: a concrete preferred-attempt timeout and a concrete
non-timeout failure lead to the same attempts, result and counters. -/
theorem timeout_attempt_failure_witness :
    (download_track cfgFix (fun _ => ToolOutcome.timedOut)
        "t" "Song - Artist" state0).2.attempts
      = (download_track cfgFix
          (fun fmt => if fmt = "mp3" then ToolOutcome.timedOut
            else ToolOutcome.completed 1 "err")
          "t" "Song - Artist" state0).2.attempts
    ∧ (download_track cfgFix (fun _ => ToolOutcome.timedOut)
        "t" "Song - Artist" state0).2.result
      = (download_track cfgFix
          (fun fmt => if fmt = "mp3" then ToolOutcome.timedOut
            else ToolOutcome.completed 1 "err")
          "t" "Song - Artist" state0).2.result :=
  ⟨(timeout_attempt_failure.2.2.2 cfgFix (fun _ => ToolOutcome.timedOut)
      (fun fmt => if fmt = "mp3" then ToolOutcome.timedOut
        else ToolOutcome.completed 1 "err")
      "t" "Song - Artist" state0 "flac" rfl rfl rfl rfl).1,
    (timeout_attempt_failure.2.2.2 cfgFix (fun _ => ToolOutcome.timedOut)
      (fun fmt => if fmt = "mp3" then ToolOutcome.timedOut
        else ToolOutcome.completed 1 "err")
      "t" "Song - Artist" state0 "flac" rfl rfl rfl rfl).2.1⟩

end FlacBulk
